import Mathlib

/-!
# Verification of the plotly.js indicator-trace rendering engine

Shallow embedding of the indicator trace plotting code (the newer variant of
`plot` in the excerpt, together with its helpers `valueToAngle`, `fitTextInside`
and `mockAxis`) and proofs of the frozen claims about it.

Modelling conventions:
* JavaScript numbers are idealized as rationals (`ℚ`); every finite IEEE double
  is a rational, and the arithmetic the claims speak about is exact.  The
  float constant `Math.PI` is embedded as `mathPI`, the exact rational value of
  the IEEE-754 double nearest to π.
* Where IEEE special values matter (division by zero in the degenerate-range
  analysis of `valueToAngle`), a dedicated type `JsNum` models NaN and the two
  infinities with the IEEE semantics of the operations the function uses.
* The d3 scene graph is modelled by the order in which the code appends element
  groups; the d3 transition runtime is modelled by its terminal events.
-/

namespace Indicator

/-- The exact rational value of the IEEE-754 double `Math.PI`
    (`884279719003555 / 2^48`). -/
def mathPI : ℚ := 884279719003555 / 281474976710656

theorem mathPI_pos : 0 < mathPI := by norm_num [mathPI]

/-! ## Value Mapper

Embeds (idealized over `ℚ`) the closure from the newer `plot` variant:

```js
var theta = Math.PI / 2;
function valueToAngle(v) {
    var angle = (v - trace.min) / (trace.max - trace.min) * Math.PI - theta;
    if(angle < -theta) return -theta;
    if(angle > theta) return theta;
    return angle;
}
```
-/

/-- Constant `theta` from the source: a quarter turn, `Math.PI / 2`. -/
def theta : ℚ := mathPI / 2

/-- Function `valueToAngle(v)` with `trace.min = mn`, `trace.max = mx`, idealized over
    `ℚ` (valid whenever no IEEE special value arises, i.e. `mx ≠ mn`). -/
def valueToAngle (mn mx v : ℚ) : ℚ :=
  let angle := (v - mn) / (mx - mn) * mathPI - theta
  if angle < -theta then -theta
  else if angle > theta then theta
  else angle

/-! ## IEEE model of the same function

`JsNum` models the values a JavaScript number can take, with the exact IEEE
semantics of the four operations `valueToAngle` performs (`-`, `/`, `*`, `<`).
This is the faithful embedding for inputs where `trace.max - trace.min = 0`,
where the idealized `ℚ` model does not apply.
-/

/-- A JavaScript (IEEE-754 double) number: NaN, the infinities, or a finite
    value (idealized to `ℚ`). -/
inductive JsNum where
  | nan : JsNum
  | posInf : JsNum
  | negInf : JsNum
  | fin : ℚ → JsNum
deriving DecidableEq

/-- IEEE subtraction on JavaScript numbers. -/
def jsSub : JsNum → JsNum → JsNum
  | .nan, _ => .nan
  | _, .nan => .nan
  | .posInf, .posInf => .nan
  | .posInf, _ => .posInf
  | .negInf, .negInf => .nan
  | .negInf, _ => .negInf
  | .fin _, .posInf => .negInf
  | .fin _, .negInf => .posInf
  | .fin a, .fin b => .fin (a - b)

/-- IEEE multiplication on JavaScript numbers. -/
def jsMul : JsNum → JsNum → JsNum
  | .nan, _ => .nan
  | _, .nan => .nan
  | .posInf, .posInf => .posInf
  | .posInf, .negInf => .negInf
  | .posInf, .fin b => if b = 0 then .nan else if 0 < b then .posInf else .negInf
  | .negInf, .posInf => .negInf
  | .negInf, .negInf => .posInf
  | .negInf, .fin b => if b = 0 then .nan else if 0 < b then .negInf else .posInf
  | .fin a, .posInf => if a = 0 then .nan else if 0 < a then .posInf else .negInf
  | .fin a, .negInf => if a = 0 then .nan else if 0 < a then .negInf else .posInf
  | .fin a, .fin b => .fin (a * b)

/-- IEEE division on JavaScript numbers (zero is the unsigned `+0`, which is
    what `trace.max - trace.min` produces when the range is degenerate). -/
def jsDiv : JsNum → JsNum → JsNum
  | .nan, _ => .nan
  | _, .nan => .nan
  | .posInf, .posInf => .nan
  | .posInf, .negInf => .nan
  | .negInf, .posInf => .nan
  | .negInf, .negInf => .nan
  | .posInf, .fin b => if 0 ≤ b then .posInf else .negInf
  | .negInf, .fin b => if 0 ≤ b then .negInf else .posInf
  | .fin _, .posInf => .fin 0
  | .fin _, .negInf => .fin 0
  | .fin a, .fin b =>
      if b = 0 then
        if a = 0 then .nan else if 0 < a then .posInf else .negInf
      else .fin (a / b)

/-- IEEE `<` on JavaScript numbers: any comparison involving NaN is false. -/
def jsLt : JsNum → JsNum → Bool
  | .nan, _ => false
  | _, .nan => false
  | .posInf, _ => false
  | .negInf, .negInf => false
  | .negInf, _ => true
  | .fin _, .posInf => true
  | .fin _, .negInf => false
  | .fin a, .fin b => decide (a < b)

/-- Function `valueToAngle(v)` transcribed over `JsNum`, faithful to IEEE arithmetic:
    `(v - mn) / (mx - mn) * Math.PI - theta`, then the two clamp comparisons
    (in which a NaN angle compares false and falls through unchanged). -/
def valueToAngleJS (mn mx v : JsNum) : JsNum :=
  let angle := jsSub (jsMul (jsDiv (jsSub v mn) (jsSub mx mn)) (.fin mathPI)) (.fin theta)
  if jsLt angle (.fin (-theta)) then .fin (-theta)
  else if jsLt (.fin theta) angle then .fin theta
  else angle

/-! ### Lemmas about `valueToAngle` -/

theorem theta_pos : 0 < theta := by norm_num [theta, mathPI]

/-- The if-chain of `valueToAngle` is a clamp of the raw angle to
    `[-theta, theta]`. -/
theorem valueToAngle_eq_clamp (mn mx v : ℚ) :
    valueToAngle mn mx v =
      max (-theta) (min theta ((v - mn) / (mx - mn) * mathPI - theta)) := by
  unfold valueToAngle
  set a := (v - mn) / (mx - mn) * mathPI - theta with ha
  by_cases h1 : a < -theta
  · rw [if_pos h1, min_eq_right (le_of_lt (lt_of_lt_of_le h1 (by linarith [theta_pos]))),
      max_eq_left (le_of_lt h1)]
  · rw [if_neg h1]
    by_cases h2 : a > theta
    · rw [if_pos h2, min_eq_left (le_of_lt h2), max_eq_right (by linarith [theta_pos])]
    · rw [if_neg h2, min_eq_right (not_lt.mp (by simpa using h2)),
        max_eq_right (not_lt.mp h1)]

/-- C1.  For every trace with `max > min` and every input `v`: on `[min,max]`
the angular mapper returns exactly `(v - min)/(max - min)·π - π/2`; the result
always lies in `[-π/2, π/2]`; the mapper is monotone non-decreasing; and
outside `[min,max]` it returns exactly the boundary angle (clamped, never
extrapolating). -/
theorem valueToAngle_spec (mn mx : ℚ) (h : mn < mx) :
    (∀ v, mn ≤ v → v ≤ mx →
        valueToAngle mn mx v = (v - mn) / (mx - mn) * mathPI - theta) ∧
    (∀ v, -theta ≤ valueToAngle mn mx v ∧ valueToAngle mn mx v ≤ theta) ∧
    (∀ v w, v ≤ w → valueToAngle mn mx v ≤ valueToAngle mn mx w) ∧
    (∀ v, v < mn → valueToAngle mn mx v = -theta) ∧
    (∀ v, mx < v → valueToAngle mn mx v = theta) := by
  have hD : 0 < mx - mn := by linarith
  have hpi : 0 < mathPI := mathPI_pos
  have htheta2 : theta + theta = mathPI := by norm_num [theta]
  refine ⟨?_, ?_, ?_, ?_, ?_⟩
  · intro v hv1 hv2
    rw [valueToAngle_eq_clamp]
    have hr0 : 0 ≤ (v - mn) / (mx - mn) := div_nonneg (by linarith) (le_of_lt hD)
    have hr1 : (v - mn) / (mx - mn) ≤ 1 := by
      rw [div_le_one hD]; linarith
    have hlow : -theta ≤ (v - mn) / (mx - mn) * mathPI - theta := by
      nlinarith
    have hhigh : (v - mn) / (mx - mn) * mathPI - theta ≤ theta := by
      nlinarith
    rw [min_eq_right hhigh, max_eq_right hlow]
  · intro v
    rw [valueToAngle_eq_clamp]
    constructor
    · exact le_max_left _ _
    · exact max_le (by linarith [theta_pos]) (min_le_left _ _)
  · intro v w hvw
    rw [valueToAngle_eq_clamp, valueToAngle_eq_clamp]
    have hmono : (v - mn) / (mx - mn) * mathPI - theta ≤
        (w - mn) / (mx - mn) * mathPI - theta := by
      have hrr : (v - mn) / (mx - mn) ≤ (w - mn) / (mx - mn) :=
        (div_le_div_iff_of_pos_right hD).mpr (by linarith)
      nlinarith
    exact max_le_max (le_refl _) (min_le_min (le_refl _) hmono)
  · intro v hv
    rw [valueToAngle_eq_clamp]
    have hr : (v - mn) / (mx - mn) < 0 := div_neg_of_neg_of_pos (by linarith) hD
    have : (v - mn) / (mx - mn) * mathPI - theta < -theta := by nlinarith
    rw [min_eq_right (by linarith [theta_pos]), max_eq_left (le_of_lt this)]
  · intro v hv
    rw [valueToAngle_eq_clamp]
    have hr : 1 < (v - mn) / (mx - mn) := by
      rw [lt_div_iff₀ hD]; linarith
    have : theta < (v - mn) / (mx - mn) * mathPI - theta := by nlinarith
    rw [min_eq_left (le_of_lt this), max_eq_right (by linarith [theta_pos])]

/-- Witness for C1: the range `[0, 10]` with `v = 5` maps to the raw angle
    formula, i.e. the gauge midpoint `0`. -/
theorem valueToAngle_spec_witness :
    (0:ℚ) < 10 ∧ valueToAngle 0 10 5 = (5 - 0) / (10 - 0) * mathPI - theta :=
  ⟨by norm_num, (valueToAngle_spec 0 10 (by norm_num)).1 5 (by norm_num) (by norm_num)⟩

/-- C4 (code bug).  With a degenerate range `min = max = 5` and input
    `v = 5`, the source divides `0 / 0` with no special case, so the IEEE
    model of `valueToAngle` returns NaN — not the fixed midpoint angle the
    specification demands. -/
theorem valueToAngleJS_degenerate_nan :
    valueToAngleJS (.fin 5) (.fin 5) (.fin 5) = JsNum.nan := by
  norm_num [valueToAngleJS, jsSub, jsDiv, jsMul, jsLt]

/-! ## Fit-to-box scaling

```js
function fitTextInside(el, width, height) {
    var textBB = Drawing.bBox(el.node());
    var ratio = Math.min(width / textBB.width, height / textBB.height);
    return ratio;
}
```

and its call site on the composed number/delta block:

```js
numbers.attr("transform", function() {
    var scaleRatio = fitTextInside(numbers, numbersMaxWidth, numbersMaxHeight);
    return strTranslate(numbersX, numbersY) + " " + (scaleRatio < 1 ? "scale(" + scaleRatio + ")" : "");
});
```
-/

/-- Function `fitTextInside` with the measured bounding box passed explicitly:
    `Math.min(width / textBB.width, height / textBB.height)` — note the raw
    ratio is not capped here. -/
def fitTextInside (width height bbWidth bbHeight : ℚ) : ℚ :=
  min (width / bbWidth) (height / bbHeight)

/-- The scale actually applied by the call site: a `scale(r)` transform is
    emitted only when `r < 1`, otherwise the transform is the identity
    (scale `1`). -/
def appliedScale (width height bbWidth bbHeight : ℚ) : ℚ :=
  if fitTextInside width height bbWidth bbHeight < 1 then
    fitTextInside width height bbWidth bbHeight
  else 1

/-- C5.  The scale applied to the number/delta text block equals
    `min(maxWidth/boxWidth, maxHeight/boxHeight)` capped at 1, is never above
    1, and is exactly 1 for a text block whose box matches the allotted
    region. -/
theorem appliedScale_spec (w h bw bh : ℚ) (hbw : 0 < bw) (hbh : 0 < bh) :
    appliedScale w h bw bh = min (fitTextInside w h bw bh) 1 ∧
    appliedScale w h bw bh ≤ 1 ∧
    (bw = w → bh = h → appliedScale w h bw bh = 1) := by
  have hcap : appliedScale w h bw bh = min (fitTextInside w h bw bh) 1 := by
    unfold appliedScale
    by_cases hr : fitTextInside w h bw bh < 1
    · rw [if_pos hr, min_eq_left (le_of_lt hr)]
    · rw [if_neg hr, min_eq_right (not_lt.mp hr)]
  refine ⟨hcap, ?_, ?_⟩
  · rw [hcap]; exact min_le_right _ _
  · intro hw hh
    subst hw; subst hh
    rw [hcap]
    have h1 : fitTextInside bw bh bw bh = 1 := by
      unfold fitTextInside
      rw [div_self (ne_of_gt hbw), div_self (ne_of_gt hbh), min_self]
    rw [h1, min_self]

/-- Witness for C5: a 2×2 box in a 2×2 region is applied scale exactly 1. -/
theorem appliedScale_spec_witness :
    (0:ℚ) < 2 ∧ appliedScale 2 2 2 2 = 1 :=
  ⟨by norm_num, (appliedScale_spec 2 2 2 2 (by norm_num) (by norm_num)).2.2 rfl rfl⟩

/-! ## Delta font sizing

The `plot` layout branch assigns (newer variant, lines 768-811):

```js
if(!hasGauge) {
    ...
    if(hasBigNumber) {
        deltaFontSize = 0.5 * bignumberFontSize;
    } else {
        deltaFontSize = bignumberFontSize;
    }
    ...
} else {
    if(isAngular) { ... deltaFontSize = 0.35 * bignumberFontSize; ... }
    if(isBullet)  { ... deltaFontSize = 0.5 * bignumberFontSize; ... }
    if(!hasBigNumber) { deltaFontSize = 0.75 * bignumberFontSize; }
}
```
-/

/-- Gauge shape, one of the two values `trace.gauge.shape` can take after
    defaults are applied. -/
inductive GaugeShape where
  | angular : GaugeShape
  | bullet : GaugeShape
deriving DecidableEq

/-- The delta font size assigned by `plot` as a function of the mode flags and
    the already-computed big-number font size `b`. -/
def deltaFontSize (hasGauge : Bool) (shape : GaugeShape) (hasBigNumber : Bool)
    (b : ℚ) : ℚ :=
  if !hasGauge then
    if hasBigNumber then 0.5 * b else b
  else
    let d := match shape with
      | .angular => 0.35 * b
      | .bullet => 0.5 * b
    if !hasBigNumber then 0.75 * b else d

/-- Counterexample to C8 as stated: with an angular gauge and a big number
    shown, the delta font size is `0.35` times the number font size, not
    `0.5` times. -/
theorem deltaFontSize_counterexample :
    ¬ deltaFontSize true GaugeShape.angular true 1 = 0.5 * 1 := by
  norm_num [deltaFontSize]

/-- C8 amended.  The delta font size is `0.5·b` (big number shown) or `b`
    (no big number) only when no gauge is present; with a gauge it is
    `0.35·b` (angular, big number), `0.5·b` (bullet, big number), and
    `0.75·b` (either shape, no big number). -/
theorem deltaFontSize_amended (s : GaugeShape) (b : ℚ) :
    deltaFontSize false s true b = 0.5 * b ∧
    deltaFontSize false s false b = b ∧
    deltaFontSize true GaugeShape.angular true b = 0.35 * b ∧
    deltaFontSize true GaugeShape.bullet true b = 0.5 * b ∧
    deltaFontSize true s false b = 0.75 * b := by
  cases s <;> simp [deltaFontSize]

/-! ## Gauge sub-element draw order

Angular gauge (lines 1121-1153): the background and steps are bound to one
group list, with the threshold arc pushed only when `trace.gauge.threshold.value`
is truthy, then the value arc group and the outline group are appended:

```js
var arcs = [gaugeBg].concat(trace.gauge.steps);
if(v) arcs.push(thresholdArc);
var targetArc = gauge.selectAll("g.targetArc").data(arcs); ...
var fgArc = gauge.selectAll("g.fgArc").data([trace.gauge.value]); ...
var gaugeBorder = gauge.selectAll("g.gaugeOutline").data([gaugeOutline]); ...
```

Bullet gauge (lines 1207-1262): background and steps, then the value bar,
then the threshold line (its data set is `cd` filtered on the same truthiness),
then the outline:

```js
var targetBullet = bullet.selectAll("g.targetBullet").data([gaugeBg].concat(trace.gauge.steps)); ...
var fgBullet = bullet.selectAll("g.fgBullet").data(cd); ...
data = cd.filter(function() {return trace.gauge.threshold.value;});
var threshold = bullet.selectAll("g.threshold").data(data); ...
var bulletOutline = bullet.selectAll("g.bulletOutline").data([gaugeOutline]); ...
```
-/

/-- JavaScript truthiness of the optional number
    `trace.gauge.threshold.value`: `undefined`, `0` and NaN are falsy, every
    other number is truthy. -/
def jsTruthy : Option JsNum → Bool
  | none => false
  | some .nan => false
  | some .posInf => true
  | some .negInf => true
  | some (.fin q) => decide (q ≠ 0)

/-- The drawable sub-element categories of a gauge. -/
inductive GaugeElem where
  | bg : GaugeElem
  | step : ℕ → GaugeElem
  | threshold : GaugeElem
  | valueShape : GaugeElem
  | outline : GaugeElem
deriving DecidableEq

/-- The declared steps, in declaration order. -/
def stepElems (numSteps : ℕ) : List GaugeElem :=
  (List.range numSteps).map GaugeElem.step

/-- Z-order of the angular gauge sub-elements as appended by the code. -/
def angularDrawOrder (numSteps : ℕ) (thresholdValue : Option JsNum) :
    List GaugeElem :=
  (([GaugeElem.bg] ++ stepElems numSteps) ++
      (if jsTruthy thresholdValue then [GaugeElem.threshold] else [])) ++
    [GaugeElem.valueShape] ++ [GaugeElem.outline]

/-- Z-order of the bullet gauge sub-elements as appended by the code. -/
def bulletDrawOrder (numSteps : ℕ) (thresholdValue : Option JsNum) :
    List GaugeElem :=
  ([GaugeElem.bg] ++ stepElems numSteps) ++ [GaugeElem.valueShape] ++
    (if jsTruthy thresholdValue then [GaugeElem.threshold] else []) ++
    [GaugeElem.outline]

/-- The z-order the specification states for every gauge: background, steps in
    declaration order, threshold, value shape, outline. -/
def specDrawOrder (numSteps : ℕ) (thresholdValue : Option JsNum) :
    List GaugeElem :=
  [GaugeElem.bg] ++ stepElems numSteps ++
    (if jsTruthy thresholdValue then [GaugeElem.threshold] else []) ++
    [GaugeElem.valueShape] ++ [GaugeElem.outline]

/-- Counterexample to C7 as stated: for a bullet gauge with no steps and a
    truthy threshold, the code draws the value bar before the threshold line,
    not after it as the specified z-order requires. -/
theorem bulletDrawOrder_counterexample :
    ¬ bulletDrawOrder 0 (some JsNum.posInf) = specDrawOrder 0 (some JsNum.posInf) := by
  simp [bulletDrawOrder, specDrawOrder, jsTruthy, stepElems]

/-- C7 amended.  The angular gauge draws background, steps, threshold, value
    arc, outline — exactly the specified z-order — while the bullet gauge
    draws the value bar before the threshold: background, steps, value bar,
    threshold, outline. -/
theorem gaugeDrawOrder_amended (n : ℕ) (v : Option JsNum)
    (hv : jsTruthy v = true) :
    angularDrawOrder n v =
      [GaugeElem.bg] ++ stepElems n ++ [GaugeElem.threshold] ++
        [GaugeElem.valueShape] ++ [GaugeElem.outline] ∧
    angularDrawOrder n v = specDrawOrder n v ∧
    bulletDrawOrder n v =
      [GaugeElem.bg] ++ stepElems n ++ [GaugeElem.valueShape] ++
        [GaugeElem.threshold] ++ [GaugeElem.outline] := by
  refine ⟨?_, ?_, ?_⟩
  · simp [angularDrawOrder, hv]
  · simp [angularDrawOrder, specDrawOrder, hv]
  · simp [bulletDrawOrder, hv]

/-- Witness for C7 amended: one step and a truthy threshold. -/
theorem gaugeDrawOrder_amended_witness :
    jsTruthy (some JsNum.posInf) = true ∧
    angularDrawOrder 1 (some JsNum.posInf) =
      specDrawOrder 1 (some JsNum.posInf) :=
  ⟨rfl, (gaugeDrawOrder_amended 1 (some JsNum.posInf) rfl).2.1⟩

/-- C10.  A threshold whose configured value is falsy — exactly `0`,
    `undefined`, or NaN — is never drawn, in either gauge shape; in
    particular a threshold at value `0` produces no marker. -/
theorem threshold_falsy_not_drawn (n : ℕ) (v : Option JsNum)
    (hv : v = none ∨ v = some JsNum.nan ∨ v = some (JsNum.fin 0)) :
    GaugeElem.threshold ∉ angularDrawOrder n v ∧
    GaugeElem.threshold ∉ bulletDrawOrder n v := by
  have hfalse : jsTruthy v = false := by
    rcases hv with h | h | h <;> subst h <;> simp [jsTruthy]
  constructor
  · simp [angularDrawOrder, hfalse, stepElems]
  · simp [bulletDrawOrder, hfalse, stepElems]

/-- Witness for C10: a threshold configured at exactly `0` (inside any range)
    is absent from both draw orders. -/
theorem threshold_falsy_not_drawn_witness :
    GaugeElem.threshold ∉ angularDrawOrder 2 (some (JsNum.fin 0)) ∧
    GaugeElem.threshold ∉ bulletDrawOrder 2 (some (JsNum.fin 0)) :=
  threshold_falsy_not_drawn 2 (some (JsNum.fin 0)) (Or.inr (Or.inr rfl))

/-! ## Transition orchestration

```js
var hasTransition = transitionOpts && transitionOpts.duration > 0;
if(hasTransition) {
    if(makeOnCompleteCallback) {
        onComplete = makeOnCompleteCallback();
    }
}
```

Each of the four animated element groups (number text, delta text, value arc,
value bar) follows the same pattern: with a transition, a d3 transition is
scheduled with an `end` and an `interrupt` handler, both of which run
`onComplete && onComplete()`; without one, the final value is set
synchronously.
-/

/-- The transition options argument of `plot` (the easing name is irrelevant
    to the claims and omitted). -/
structure TransitionOpts where
  duration : ℚ

/-- Flag `hasTransition = transitionOpts && transitionOpts.duration > 0`. -/
def hasTransition (topts : Option TransitionOpts) : Bool :=
  match topts with
  | none => false
  | some o => decide (0 < o.duration)

/-- Callback `onComplete` is created only under `hasTransition`, and only when a
    `makeOnCompleteCallback` argument was passed. -/
def onCompleteCreated (topts : Option TransitionOpts) (hasMakeCallback : Bool) :
    Bool :=
  hasTransition topts && hasMakeCallback

/-- How one animated element group is rendered by a `plot` call: a scheduled
    interpolation, or a synchronous set of the final value. -/
inductive GroupRender where
  | animated : ℚ → ℚ → GroupRender
  | sync : ℚ → GroupRender
deriving DecidableEq

/-- The branch shared by the four animated element groups: under
    `hasTransition` schedule an interpolation from the previous quantity to
    the target, otherwise set the target synchronously. -/
def groupRender (topts : Option TransitionOpts) (fromVal toVal : ℚ) :
    GroupRender :=
  if hasTransition topts then GroupRender.animated fromVal toVal
  else GroupRender.sync toVal

/-- The number text group (lines 901-916): interpolates
    `cd[0].lastY → cd[0].y`, or sets `fmt(cd[0].y)` synchronously. -/
def numberRender (topts : Option TransitionOpts) (lastY y : ℚ) : GroupRender :=
  groupRender topts lastY y

/-- The delta text group (lines 918-937): interpolates
    `trace._deltaLastValue → deltaValue(d)`, or sets the formatted target
    synchronously. -/
def deltaTextRender (topts : Option TransitionOpts) (deltaLast target : ℚ) :
    GroupRender :=
  groupRender topts deltaLast target

/-- The angular value arc group (lines 1134-1146): tweens between
    `valueToAngle(cd[0].lastY)` and `valueToAngle(cd[0].y)`, or sets the end
    angle `valueToAngle(cd[0].y)` synchronously. -/
def fgArcRender (topts : Option TransitionOpts) (mn mx lastY y : ℚ) :
    GroupRender :=
  groupRender topts (valueToAngle mn mx lastY) (valueToAngle mn mx y)

/-- The bullet value bar width: `Math.max(0, ax.c2p(Math.min(trace.max, cd[0].y)))`. -/
def fgBulletWidth (c2p : ℚ → ℚ) (mx y : ℚ) : ℚ :=
  max 0 (c2p (min mx y))

/-- The bullet value bar group (lines 1227-1237): animates the width
    attribute from its current value to the target width, or sets it
    synchronously. -/
def fgBulletRender (topts : Option TransitionOpts) (current : ℚ)
    (c2p : ℚ → ℚ) (mx y : ℚ) : GroupRender :=
  groupRender topts current (fgBulletWidth c2p mx y)

/-- C6.  A render with no transition options, or with duration `0`, bypasses
    the transition machinery: `hasTransition` is false, the number text, delta
    text and both gauge value shapes are set synchronously to their final
    values, and no completion callback is created. -/
theorem duration_zero_bypass (lastY y dLast dTgt mn mx cur : ℚ)
    (c2p : ℚ → ℚ) (mk : Bool) (o : TransitionOpts) (ho : o.duration = 0) :
    hasTransition (none : Option TransitionOpts) = false ∧
    hasTransition (some o) = false ∧
    numberRender none lastY y = GroupRender.sync y ∧
    numberRender (some o) lastY y = GroupRender.sync y ∧
    deltaTextRender (some o) dLast dTgt = GroupRender.sync dTgt ∧
    fgArcRender (some o) mn mx lastY y =
      GroupRender.sync (valueToAngle mn mx y) ∧
    fgBulletRender (some o) cur c2p mx y =
      GroupRender.sync (fgBulletWidth c2p mx y) ∧
    onCompleteCreated none mk = false ∧
    onCompleteCreated (some o) mk = false := by
  have h : hasTransition (some o) = false := by
    simp [hasTransition, ho]
  refine ⟨rfl, h, rfl, ?_, ?_, ?_, ?_, rfl, ?_⟩ <;>
    simp [numberRender, deltaTextRender, fgArcRender, fgBulletRender,
      groupRender, onCompleteCreated, h]

/-- Witness for C6: a zero-duration transition renders `lastValue = 0`,
    `value = 100` synchronously at `100` with no callback created. -/
theorem duration_zero_bypass_witness :
    ({ duration := 0 } : TransitionOpts).duration = 0 ∧
    numberRender (some { duration := 0 }) 0 100 = GroupRender.sync 100 ∧
    onCompleteCreated (some { duration := 0 }) true = false := by
  have h := duration_zero_bypass 0 100 0 0 0 1 0 (fun q => q) true
    { duration := 0 } rfl
  exact ⟨rfl, h.2.2.1, h.2.2.2.2.2.2.2.2⟩

/-! ### Completion handlers -/

/-- Which of the two terminal-event handlers attached to a transition invoke
    the completion callback. -/
structure TransitionHandlers where
  endCallsOnComplete : Bool
  interruptCallsOnComplete : Bool
deriving DecidableEq

/-- Handlers of the number text transition (lines 905-906): both events run
    `onComplete && onComplete()`. -/
def numberHandlers : TransitionHandlers :=
  { endCallsOnComplete := true, interruptCallsOnComplete := true }

/-- Handlers of the delta text transition (lines 923-924). -/
def deltaHandlers : TransitionHandlers :=
  { endCallsOnComplete := true, interruptCallsOnComplete := true }

/-- Handlers of the angular value arc transition (lines 1139-1140). -/
def fgArcHandlers : TransitionHandlers :=
  { endCallsOnComplete := true, interruptCallsOnComplete := true }

/-- Handlers of the bullet value bar transition (lines 1232-1233). -/
def fgBulletHandlers : TransitionHandlers :=
  { endCallsOnComplete := true, interruptCallsOnComplete := true }

/-- Terminal event of a started d3 transition.  Modelled from the spec: the
    d3 transition runtime is external to the excerpt, and the spec states that
    every started transition receives exactly one terminal event — natural
    end, or interrupt when superseded by a new render. -/
inductive TransitionOutcome where
  | ended : TransitionOutcome
  | interrupted : TransitionOutcome
deriving DecidableEq

/-- How many times the handlers of one group invoke the completion callback,
    given whether `onComplete` was created and which terminal event fired
    (`onComplete && onComplete()` is a no-op on an undefined callback). -/
def onCompleteInvocations (h : TransitionHandlers) (callbackDefined : Bool)
    (o : TransitionOutcome) : ℕ :=
  if callbackDefined then
    match o with
    | .ended => if h.endCallsOnComplete then 1 else 0
    | .interrupted => if h.interruptCallsOnComplete then 1 else 0
  else 0

/-- C3.  Whichever terminal event a started transition receives, each of the
    four animated element groups invokes the created completion callback
    exactly once: never zero times, never twice. -/
theorem completion_exactly_once (o : TransitionOutcome) :
    onCompleteInvocations numberHandlers true o = 1 ∧
    onCompleteInvocations deltaHandlers true o = 1 ∧
    onCompleteInvocations fgArcHandlers true o = 1 ∧
    onCompleteInvocations fgBulletHandlers true o = 1 := by
  cases o <;>
    simp [onCompleteInvocations, numberHandlers, deltaHandlers,
      fgArcHandlers, fgBulletHandlers]

/-! ### Delta commit discipline

```js
if(!trace._deltaLastValue) trace._deltaLastValue = 0;
...
delta.transition()
    ...
    .each("end", function(d) { trace._deltaLastValue = deltaValue(d); onComplete && onComplete(); })
    .each("interrupt", function() { onComplete && onComplete(); })
    .attrTween("text", function(d) {
        var to = deltaValue(d);
        var from = trace._deltaLastValue;
        var interpolator = d3.interpolateNumber(from, to);
        return function(t) { that.text(deltaFormatText(interpolator(t))); };
    });
```
-/

/-- Initialization of `trace._deltaLastValue` (line 720): a falsy stored
    value (absent, or `0`) is replaced by `0`. -/
def initDeltaLastValue (prev : Option ℚ) : ℚ :=
  match prev with
  | none => 0
  | some q => if q = 0 then 0 else q

/-- One scheduled delta transition: the tween captures
    `from = trace._deltaLastValue` at schedule time and `to = deltaValue(d)`. -/
structure DeltaTransition where
  src : ℚ
  tgt : ℚ
deriving DecidableEq

/-- Evaluation of `d3.interpolateNumber(a, b)` at `t`: the mid-flight displayed
    value. -/
def interpolateNumber (a b t : ℚ) : ℚ := a + (b - a) * t

/-- The delta animation state of one trace: the committed value
    `trace._deltaLastValue`, plus the in-flight transition if any. -/
structure DeltaState where
  committed : ℚ
  current : Option DeltaTransition
deriving DecidableEq

/-- Lifecycle events of the delta transition. -/
inductive DeltaEvent where
  | start : ℚ → DeltaEvent
  | finish : DeltaEvent
  | interrupt : DeltaEvent

/-- One step of the delta state machine, transcribing the code: scheduling a
    transition tweens from the committed `trace._deltaLastValue`; the `end`
    handler stores the target into `trace._deltaLastValue`; the `interrupt`
    handler does not touch it. -/
def deltaStep (s : DeltaState) : DeltaEvent → DeltaState
  | .start tgt => { s with current := some { src := s.committed, tgt := tgt } }
  | .finish =>
      match s.current with
      | some t => { committed := t.tgt, current := none }
      | none => s
  | .interrupt => { s with current := none }

/-- Run a sequence of delta lifecycle events. -/
def deltaRun (s : DeltaState) (es : List DeltaEvent) : DeltaState :=
  es.foldl deltaStep s

/-- C2.  The delta source value is committed only at genuine completion: on
    first render the committed value is `0`; natural completion commits the
    transition target; an interrupt leaves the committed value untouched; and
    a transition superseding an interrupted one interpolates from the last
    committed value — its captured source is independent of how far the
    interrupted interpolation had progressed. -/
theorem delta_commit_only_on_completion (c v1 v2 : ℚ) :
    initDeltaLastValue none = 0 ∧
    deltaRun { committed := c, current := none }
      [DeltaEvent.start v1, DeltaEvent.finish] =
      { committed := v1, current := none } ∧
    deltaRun { committed := c, current := none }
      [DeltaEvent.start v1, DeltaEvent.interrupt] =
      { committed := c, current := none } ∧
    (deltaRun { committed := c, current := none }
      [DeltaEvent.start v1, DeltaEvent.interrupt, DeltaEvent.start v2]).current =
      some { src := c, tgt := v2 } ∧
    (∀ t : ℚ, ((deltaRun { committed := c, current := none }
        [DeltaEvent.start v1]).current.map
          (fun tr => interpolateNumber tr.src tr.tgt t)) =
      some (interpolateNumber c v1 t)) :=
  ⟨rfl, rfl, rfl, rfl, fun _ => rfl⟩

/-! ## The Axis Adapter `mockAxis`

```js
function mockAxis(gd, opts, zrange) {
    var fullLayout = gd._fullLayout;
    var axisIn = { type: "linear", ticks: "outside", range: zrange, tickmode: opts.tickmode, ... };
    var axisOut = { type: "linear", _id: "x" + opts._id };
    var axisOptions = { letter: "x", font: fullLayout.font, noHover: true, noTickson: true };
    function coerce(attr, dflt) { return Lib.coerce(axisIn, axisOut, axisLayoutAttrs, attr, dflt); }
    handleAxisDefaults(axisIn, axisOut, coerce, axisOptions, fullLayout);
    handleAxisPositionDefaults(axisIn, axisOut, coerce, axisOptions);
    return axisOut;
}
```

Every reference to `opts` in the body is a field read used to build the local
`axisIn` literal; `axisOut` is a fresh local object and is what is returned.
The embedding passes the caller state explicitly, so that the absence of
writes to it is a provable statement rather than a convention.
-/

/-- The gauge axis options `mockAxis` reads from the trace
    (`trace.gauge.axis`).  Payload types are opaque.  The fields named
    `showtickprefixVal` and `tickprefixVal` model the source fields
    `showtickprefix` and `tickprefix`, and `idField` models `_id`. -/
structure GaugeAxisOpts (α : Type) where
  tickmode : α
  nticks : α
  tick0 : α
  dtick : α
  tickvals : α
  ticktext : α
  ticklen : α
  tickwidth : α
  tickcolor : α
  showticklabels : α
  tickfont : α
  tickangle : α
  tickformat : α
  exponentformat : α
  separatethousands : α
  showexponent : α
  showtickprefixVal : α
  tickprefixVal : α
  showticksuffix : α
  ticksuffix : α
  title : α
  idField : α
deriving DecidableEq

/-- The synthetic `axisIn` literal built by `mockAxis`: the copied option
    fields plus the hard-coded entries (`typeName` models `type`,
    `anchorName` models `anchor`). -/
structure AxisIn (α β : Type) where
  typeName : String
  ticks : String
  rangeVal : Option β
  tickmode : α
  nticks : α
  tick0 : α
  dtick : α
  tickvals : α
  ticktext : α
  ticklen : α
  tickwidth : α
  tickcolor : α
  showticklabels : α
  tickfont : α
  tickangle : α
  tickformat : α
  exponentformat : α
  separatethousands : α
  showexponent : α
  showtickprefixVal : α
  tickprefixVal : α
  showticksuffix : α
  ticksuffix : α
  title : α
  showline : Bool
  anchorName : String
  position : ℚ
deriving DecidableEq

/-- Builds `axisIn` from the gauge axis options and the range argument; each
    option field is read, none is written. -/
def buildAxisIn (opts : GaugeAxisOpts α) (zrange : Option β) : AxisIn α β :=
  { typeName := "linear"
    ticks := "outside"
    rangeVal := zrange
    tickmode := opts.tickmode
    nticks := opts.nticks
    tick0 := opts.tick0
    dtick := opts.dtick
    tickvals := opts.tickvals
    ticktext := opts.ticktext
    ticklen := opts.ticklen
    tickwidth := opts.tickwidth
    tickcolor := opts.tickcolor
    showticklabels := opts.showticklabels
    tickfont := opts.tickfont
    tickangle := opts.tickangle
    tickformat := opts.tickformat
    exponentformat := opts.exponentformat
    separatethousands := opts.separatethousands
    showexponent := opts.showexponent
    showtickprefixVal := opts.showtickprefixVal
    tickprefixVal := opts.tickprefixVal
    showticksuffix := opts.showticksuffix
    ticksuffix := opts.ticksuffix
    title := opts.title
    showline := true
    anchorName := "free"
    position := 1 }

/-- The returned synthetic axis descriptor: the resolved defaults together
    with the fresh identifier `"x" + opts._id`. -/
structure AxisDescriptor (α β : Type) where
  resolvedFrom : AxisIn α β
  font : α
  idField : α
deriving DecidableEq

/-- Modelled from the spec: `Lib.coerce`, `handleAxisDefaults` and
    `handleAxisPositionDefaults` belong to the external Cartesian-axis
    subsystem and are absent from the excerpt; per the spec they resolve
    defaults by reading the source object and writing only the output
    descriptor, so they are a pure function of `axisIn` and the layout
    font. -/
def applyAxisDefaults (axisIn : AxisIn α β) (layoutFont : α) (idField : α) :
    AxisDescriptor α β :=
  { resolvedFrom := axisIn, font := layoutFont, idField := idField }

/-- Function `mockAxis(gd, opts, zrange)` with the caller state passed and returned
    explicitly: the first component is the returned throwaway descriptor, the
    second is the caller options object after the call. -/
def mockAxis (opts : GaugeAxisOpts α) (zrange : Option β) (layoutFont : α) :
    AxisDescriptor α β × GaugeAxisOpts α :=
  (applyAxisDefaults (buildAxisIn opts zrange) layoutFont opts.idField, opts)

/-- C9.  `mockAxis` never mutates the caller options: the caller state after
    the call is the state before it, and the returned descriptor is a
    throwaway recomputed identically by a repeated call on the resulting
    state. -/
theorem mockAxis_no_mutation (α β : Type) (opts : GaugeAxisOpts α)
    (zrange : Option β) (layoutFont : α) :
    (mockAxis opts zrange layoutFont).2 = opts ∧
    (mockAxis (mockAxis opts zrange layoutFont).2 zrange layoutFont).1 =
      (mockAxis opts zrange layoutFont).1 :=
  ⟨rfl, rfl⟩

end Indicator
